import Mathlib

/-!
Shallow embedding of the connection/request core of the
`custom-web3-provider-sdk` repository.

The definitions below are translated from:
 * `src/unnamed/part_004` (ESM build of `providerUtils`: `isValidAddress`,
   `isValidChainId`, `setupProviderEventListeners`, `createTimeoutPromise`,
   `safeProviderRequest`),
 * `src/dist/providerUtils.js` (CJS build of the same module, whose
   `safeProviderRequest` additionally skips `undefined`-valued envelope keys),
 * `src/src/useWeb3Provider.ts` (connection state machine: `connect`,
   `disconnect`, `clearError`, `retryOperation`, the global
   `handleGlobalAccountsChanged` / `handleGlobalChainChanged` handlers and the
   connection-scoped callbacks wired in `connect`),
 * `src/src/walletActions.ts` (`requestAccounts`),
 * `src/src/constants.ts` (`PROVIDER_PATTERNS`, `ERROR_CODES`, defaults).

JavaScript runtime values are modelled by the inductive `Value`; machine
integers do not occur in the modelled code paths (the only numbers are error
codes and millisecond delays, both small naturals/integers).
-/

namespace Web3SDK

/-- A JavaScript runtime value, as far as the modelled code inspects one:
`undefined`, `null`, booleans, numbers (modelled as integers — the code only
ever compares error codes and lengths), strings, arrays and plain objects
(association lists of string keys, first binding wins as in object literals). -/
inductive Value : Type
  | vUndefined : Value
  | vNull : Value
  | vBool (b : Bool) : Value
  | vNum (n : Int) : Value
  | vStr (s : String) : Value
  | vArr (elems : List Value) : Value
  | vObj (fields : List (String × Value)) : Value

/-- JavaScript truthiness, used by the guards `account && ...`,
`newChainId && ...`, `result && ...` in the source. -/
def truthy : Value → Bool
  | .vUndefined => false
  | .vNull => false
  | .vBool b => b
  | .vNum n => n != 0
  | .vStr s => s != ""
  | .vArr _ => true
  | .vObj _ => true

/-- The guard `x && typeof x === 'string'`: a non-empty string. -/
def isTruthyString : Value → Bool
  | .vStr s => s != ""
  | _ => false

/-- The test `typeof v === 'string'` alone. -/
def isStringV : Value → Bool
  | .vStr _ => true
  | _ => false

/-- A hex digit as matched by the character class `[a-fA-F0-9]`. -/
def isHexChar (c : Char) : Bool :=
  (decide ('0' ≤ c) && decide (c ≤ '9')) ||
  (decide ('a' ≤ c) && decide (c ≤ 'f')) ||
  (decide ('A' ≤ c) && decide (c ≤ 'F'))

/-- Function `isValidAddress` from `providerUtils`: the regex `^0x[a-fA-F0-9]{40}$`
(after the upfront falsy / non-string guard, which the `String` argument type
already discharges; the empty string fails the regex anyway). -/
def isValidAddress (address : String) : Bool :=
  match address.data with
  | '0' :: 'x' :: rest => rest.length == 40 && rest.all isHexChar
  | _ => false

/-- Function `isValidChainId` from `providerUtils`: non-empty, matches
`^0x[a-fA-F0-9]+$`, is neither `0x` nor `0x0`, and has length in `[3, 64]`.
String length is code-unit length in JS; all relevant inputs are ASCII, where
it coincides with `List.length` of the characters. -/
def isValidChainId (chainId : String) : Bool :=
  if chainId.data.isEmpty then false
  else
    let isValidHex :=
      match chainId.data with
      | '0' :: 'x' :: rest => !rest.isEmpty && rest.all isHexChar
      | _ => false
    let isNotZero := !(chainId.data == ['0', 'x']) && !(chainId.data == ['0', 'x', '0'])
    let hasReasonableLength :=
      decide (3 ≤ chainId.data.length) && decide (chainId.data.length ≤ 64)
    isValidHex && isNotZero && hasReasonableLength

/-- Modelled from the spec: the chain-id pattern the data-model invariant in
§3 of the specification demands — `^0x[0-9a-f]+$` (lowercase hex only),
non-zero, total length in `[3, 64]`. Written from the spec's words so it can
be compared with the code's `isValidChainId`, which also accepts uppercase. -/
def specChainIdPattern (s : String) : Bool :=
  (match s.data with
   | '0' :: 'x' :: rest =>
       !rest.isEmpty &&
       rest.all (fun c =>
         (decide ('0' ≤ c) && decide (c ≤ '9')) || (decide ('a' ≤ c) && decide (c ≤ 'f')))
   | _ => false) &&
  !(s.data == ['0', 'x', '0']) &&
  decide (3 ≤ s.data.length) && decide (s.data.length ≤ 64)

-- The string error codes of `ERROR_CODES` in `src/src/constants.ts`.
namespace ERROR_CODES

def PROVIDER_NOT_FOUND : String := "PROVIDER_NOT_FOUND"

def NETWORK_ERROR : String := "NETWORK_ERROR"

def USER_REJECTED : String := "USER_REJECTED"

def UNAUTHORIZED : String := "UNAUTHORIZED"

def UNSUPPORTED_METHOD : String := "UNSUPPORTED_METHOD"

def INVALID_PARAMS : String := "INVALID_PARAMS"

def INTERNAL_ERROR : String := "INTERNAL_ERROR"

def RESOURCE_UNAVAILABLE : String := "RESOURCE_UNAVAILABLE"

def JSON_RPC_ERROR : String := "JSON_RPC_ERROR"

end ERROR_CODES

/-- Structure `Web3ProviderError` from `types.ts`: a message, one of the `ERROR_CODES`
strings, and the free-form `data` context (modelled as a key/value list). -/
structure Web3ProviderError : Type where
  message : String
  code : String
  data : List (String × Value)

/-- Constructor `ProviderNotFoundError` from `types.ts`. -/
def providerNotFoundError (providerName : String) : Web3ProviderError :=
  { message := "Provider \"" ++ providerName ++ "\" not found"
    code := ERROR_CODES.PROVIDER_NOT_FOUND
    data := [("providerName", .vStr providerName)] }

/-- First binding for a key in an object's field list (`'k' in obj` plus
`obj.k`; duplicate keys in an object literal collapse to one, so taking the
first binding is faithful). -/
def getField (fields : List (String × Value)) (key : String) : Option Value :=
  (fields.find? (fun p => p.1 == key)).map (fun p => p.2)

/-- The test `'k' in obj && obj.k !== undefined`, as the CJS `dist` build tests
envelope keys: a binding whose value is not `undefined`. -/
def getDefinedField (fields : List (String × Value)) (key : String) : Option Value :=
  match getField fields key with
  | some .vUndefined => none
  | some v => some v
  | none => none

/-- Result-envelope unwrapping of `safeProviderRequest` in the ESM build
(`src/unnamed/part_004`): if the raw result is a (truthy, non-array) object
with a `result` key, return that key's value; else if it has a `data` key,
return that value; else return the raw result unchanged. Arrays have `typeof
'object'` but no `result`/`data` property, and `null` fails the truthiness
guard, so only `vObj` is inspected. -/
def unwrapResponse (result : Value) : Value :=
  match result with
  | .vObj fields =>
    match getField fields "result" with
    | some r => r
    | none =>
      match getField fields "data" with
      | some d => d
      | none => result
  | _ => result

/-- Result-envelope unwrapping of `safeProviderRequest` in the CJS build
(`src/dist/providerUtils.js`): same shape, but a key counts only when its
value is not `undefined` (`'result' in result && result.result !== undefined`,
likewise for `data`). -/
def unwrapResponseDist (result : Value) : Value :=
  match result with
  | .vObj fields =>
    match getDefinedField fields "result" with
    | some r => r
    | none =>
      match getDefinedField fields "data" with
      | some d => d
      | none => result
  | _ => result

/-- How the raw `provider.request({method, params})` promise settles, if the
host lets it settle at all: resolution with a value, or rejection with a raw
host error carrying an optional numeric `code` and a message (an absent or
falsy message is modelled as `""`, which is what `error.message || ...`
tests). -/
inductive RequestOutcome : Type
  | resolves (v : Value) : RequestOutcome
  | rejects (code : Option Int) (message : String) : RequestOutcome

/-- The rejection produced by `createTimeoutPromise` in `providerUtils`: a
`Web3ProviderError('Request timeout', RESOURCE_UNAVAILABLE, {timeout})`. -/
def createTimeoutError (timeoutMs : Nat) : Web3ProviderError :=
  { message := "Request timeout"
    code := ERROR_CODES.RESOURCE_UNAVAILABLE
    data := [("timeout", .vNum (timeoutMs : Int))] }

/-- What the `catch` block of `safeProviderRequest` receives: either the raw
host rejection, or an already-typed `Web3ProviderError` (the only such source
inside the `try` is the timeout rejection). -/
inductive CaughtError : Type
  | raw (code : Option Int) (message : String) : CaughtError
  | typed (e : Web3ProviderError) : CaughtError

/-- The error classification in `safeProviderRequest`'s `catch` block (both
builds are identical here): numeric codes 4001/4100/4200/4900/4901 map to the
corresponding `ERROR_CODES` kinds, everything else — including the typed
timeout error, whose string `code` matches none of the numeric comparisons —
is re-wrapped as `JSON_RPC_ERROR` with `error.message || 'Provider request
failed'` and the `{method, params}` context. -/
def classifyCaught (err : CaughtError) (method : String) (params : List Value) :
    Web3ProviderError :=
  let mp : List (String × Value) := [("method", .vStr method), ("params", .vArr params)]
  match err with
  | .raw code msg =>
    if code = some 4001 then
      { message := "User rejected the request", code := ERROR_CODES.USER_REJECTED, data := mp }
    else if code = some 4100 then
      { message := "Unauthorized", code := ERROR_CODES.UNAUTHORIZED, data := mp }
    else if code = some 4200 then
      { message := "Unsupported method", code := ERROR_CODES.UNSUPPORTED_METHOD, data := mp }
    else if code = some 4900 then
      { message := "Disconnected from chain", code := ERROR_CODES.NETWORK_ERROR, data := mp }
    else if code = some 4901 then
      { message := "Chain disconnected", code := ERROR_CODES.NETWORK_ERROR, data := mp }
    else
      { message := if msg = "" then "Provider request failed" else msg
        code := ERROR_CODES.JSON_RPC_ERROR, data := mp }
  | .typed e =>
    { message := if e.message = "" then "Provider request failed" else e.message
      code := ERROR_CODES.JSON_RPC_ERROR, data := mp }

/-- Function `safeProviderRequest` from the ESM build, as a function of the underlying
request's outcome and of which racer settles first. `withinTimeout = false`
means the timer fired before the request settled: `Promise.race` then takes
the timeout rejection and the request promise is abandoned unread, which is
why `outcome` is simply ignored in that branch. All exits are a value or a
`Web3ProviderError`. -/
def safeProviderRequest (outcome : RequestOutcome) (withinTimeout : Bool)
    (method : String) (params : List Value) (timeoutMs : Nat) :
    Except Web3ProviderError Value :=
  if withinTimeout then
    match outcome with
    | .resolves v => .ok (unwrapResponse v)
    | .rejects code msg => .error (classifyCaught (.raw code msg) method params)
  else
    .error (classifyCaught (.typed (createTimeoutError timeoutMs)) method params)

/-- Function `safeProviderRequest` from the CJS `dist` build; identical except for the
`undefined`-skipping envelope unwrap. -/
def safeProviderRequestDist (outcome : RequestOutcome) (withinTimeout : Bool)
    (method : String) (params : List Value) (timeoutMs : Nat) :
    Except Web3ProviderError Value :=
  if withinTimeout then
    match outcome with
    | .resolves v => .ok (unwrapResponseDist v)
    | .rejects code msg => .error (classifyCaught (.raw code msg) method params)
  else
    .error (classifyCaught (.typed (createTimeoutError timeoutMs)) method params)

/-- The `code` of a rejected request, `none` on success. -/
def errCodeOf (r : Except Web3ProviderError Value) : Option String :=
  match r with
  | .error e => some e.code
  | .ok _ => none

/-- The `message` of a rejected request, `none` on success. -/
def errMessageOf (r : Except Web3ProviderError Value) : Option String :=
  match r with
  | .error e => some e.message
  | .ok _ => none

/-- The context `data` of a rejected request, `none` on success. -/
def errDataOf (r : Except Web3ProviderError Value) : Option (List (String × Value)) :=
  match r with
  | .error e => some e.data
  | .ok _ => none

/-- The `status` values of `useWeb3Provider`. -/
inductive ProviderStatus : Type
  | disconnected : ProviderStatus
  | connecting : ProviderStatus
  | connected : ProviderStatus
  | error : ProviderStatus
deriving DecidableEq

/-- A `DetectedWalletProvider` as far as the state machine inspects it: its
name, whether its capability handle exposes a callable `request` (always true
for anything `detectProviders` emits, since detection already requires it),
and the `isConnected` hint. The opaque capability handle itself is carried by
the per-attempt environment below. -/
structure DetectedWalletProvider : Type where
  name : String
  hasRequest : Bool
  isConnectedHint : Bool

/-- The connection-state fields of `useWeb3Provider` that the claims are
about: `currentProvider`, `accounts`, `chainId`, `status`, `error`. React
state cells holding `string | null` are modelled as `Option Value` with
`none` for null/undefined (`normalizeNullable` below); `accounts` holds the
raw runtime values the code stores, which are only strings on the validated
event paths. -/
structure ConnectionState : Type where
  currentProvider : Option DetectedWalletProvider
  accounts : List Value
  chainId : Option Value
  status : ProviderStatus
  lastError : Option Web3ProviderError

/-- The initial state of the hook. -/
def initialState : ConnectionState :=
  { currentProvider := none, accounts := [], chainId := none
    status := .disconnected, lastError := none }

/-- Storing a runtime value into a `string | null` state cell: `null` and
`undefined` leave the cell null-ish, anything else is stored as-is. -/
def normalizeNullable (v : Value) : Option Value :=
  match v with
  | .vNull => none
  | .vUndefined => none
  | v => some v

/-- Function `clearError` from `useWeb3Provider`: drop the stored error and, when the
status is `error`, fall back to `disconnected`; nothing else is touched. -/
def clearError (st : ConnectionState) : ConnectionState :=
  let st' := { st with lastError := none }
  if st.status = .error then { st' with status := .disconnected } else st'

/-- Function `disconnect` from `useWeb3Provider`: a no-op when no provider is current
(early return before any state change); otherwise run the stored listener
cleanup (no `ConnectionState` effect) and reset every field to its initial
shape. -/
def disconnect (st : ConnectionState) : ConnectionState :=
  match st.currentProvider with
  | none => st
  | some _ =>
    { currentProvider := none, accounts := [], chainId := none
      status := .disconnected, lastError := none }

/-- Function `handleGlobalAccountsChanged` from the mount effect of `useWeb3Provider`:
keep only truthy strings of an array payload (a non-array payload yields
`[]`), store them as `accounts`, and if none remain also clear the provider
and chain id and become `disconnected`. -/
def handleGlobalAccountsChanged (st : ConnectionState) (payload : Value) :
    ConnectionState :=
  let validAccounts :=
    match payload with
    | .vArr xs => xs.filter isTruthyString
    | _ => []
  let st' := { st with accounts := validAccounts }
  if validAccounts.isEmpty then
    { st' with currentProvider := none, chainId := none, status := .disconnected }
  else
    st'

/-- Function `handleGlobalChainChanged` from the mount effect of `useWeb3Provider`:
any truthy string — with no `isValidChainId` check — replaces `chainId`;
everything else is ignored. -/
def handleGlobalChainChanged (st : ConnectionState) (newChainId : Value) :
    ConnectionState :=
  match newChainId with
  | .vStr s => if s = "" then st else { st with chainId := some (.vStr s) }
  | _ => st

/-- The `onAccountsChanged` callback `connect` wires into
`setupProviderEventListeners`: re-filter to truthy strings, store, and reset
provider/chain/status when nothing remains. -/
def connectOnAccountsChanged (st : ConnectionState) (newAccounts : List Value) :
    ConnectionState :=
  let validAccounts := newAccounts.filter isTruthyString
  let st' := { st with accounts := validAccounts }
  if validAccounts.isEmpty then
    { st' with currentProvider := none, chainId := none, status := .disconnected }
  else
    st'

/-- The `onChainChanged` callback `connect` wires into
`setupProviderEventListeners`: a truthy string replaces `chainId`, anything
else is ignored (log only). -/
def connectOnChainChanged (st : ConnectionState) (newChainId : Value) :
    ConnectionState :=
  match newChainId with
  | .vStr s => if s = "" then st else { st with chainId := some (.vStr s) }
  | _ => st

/-- The `onDisconnect` callback `connect` wires into
`setupProviderEventListeners`: store a `NETWORK_ERROR`-wrapped error whose
message derives from the reason (`err.message || 'Provider disconnected'`
after the `Error`/`JSON.stringify` coercions in the handler — the derived
message is passed in here, since only the code and the reset matter to the
state machine) and reset to `disconnected`. -/
def connectOnDisconnect (st : ConnectionState) (derivedMessage : String) :
    ConnectionState :=
  let _ := st
  { currentProvider := none, accounts := [], chainId := none
    status := .disconnected
    lastError := some
      { message := if derivedMessage = "" then "Provider disconnected" else derivedMessage
        code := ERROR_CODES.NETWORK_ERROR, data := [] } }

/-- The payload coercion in `handleAccountsChanged` of
`setupProviderEventListeners` (`providerUtils`): an array is taken as-is, a
truthy non-array value is wrapped into a singleton, a falsy one becomes the
empty list. -/
def coerceAccountsPayload (payload : Value) : List Value :=
  match payload with
  | .vArr xs => xs
  | v => if truthy v then [v] else []

/-- The validation filter of `handleAccountsChanged` in
`setupProviderEventListeners`: truthy strings passing `isValidAddress`. -/
def scopedValidAccounts (payload : Value) : List Value :=
  (coerceAccountsPayload payload).filter
    (fun a =>
      isTruthyString a &&
      (match a with
       | .vStr s => isValidAddress s
       | _ => false))

/-- An `accountsChanged` emission routed through the connection-scoped
listener set (`setupProviderEventListeners` handler composed with the
`connect` callback). -/
def scopedAccountsChanged (st : ConnectionState) (payload : Value) :
    ConnectionState :=
  connectOnAccountsChanged st (scopedValidAccounts payload)

/-- A `chainChanged` emission routed through the connection-scoped listener
set: `handleChainChanged` in `setupProviderEventListeners` forwards the value
to the callback only when it is a truthy string passing `isValidChainId`;
otherwise it reports an error and leaves state alone. -/
def scopedChainChanged (st : ConnectionState) (newChainId : Value) :
    ConnectionState :=
  match newChainId with
  | .vStr s =>
    if s ≠ "" && isValidChainId s then connectOnChainChanged st (.vStr s) else st
  | _ => st

/-- The window properties the mount effect's `setupEventListeners` attaches
`handleGlobalAccountsChanged` / `handleGlobalChainChanged` to (the
`allProviderNames` list in `useWeb3Provider`). -/
def allProviderNames : List String :=
  ["ethereum", "lxx", "customWallet", "coinbaseWalletExtension", "rabby", "brave",
    "trustwallet"]

/-- Mapping `PROVIDER_PATTERNS` from `constants.ts`: provider name to the window
property its capability handle lives on. -/
def windowPropertyOf (name : String) : Option String :=
  if name = "customwallet" then some "customWallet"
  else if name = "metamask" then some "ethereum"
  else if name = "coinbase" then some "coinbaseWalletExtension"
  else if name = "trustwallet" then some "trustwallet"
  else if name = "rabby" then some "rabby"
  else if name = "brave" then some "brave"
  else if name = "lxxwallet" then some "lxxwallet"
  else none

/-- Whether the mount-time global listeners are attached to the capability
handle a named provider is detected on (its window property is in
`allProviderNames`; attachment also needs `on`/`request` on the handle, which
holds for any handle that could emit events at all). -/
def hasGlobalListeners (name : String) : Bool :=
  match windowPropertyOf name with
  | some w => allProviderNames.contains w
  | none => false

/-- Delivery of one `accountsChanged` emission from the connected capability
handle: the mount-time global handler (attached first, when the handle's
window property carries it) runs, then the connection-scoped handler. -/
def deliverAccountsChanged (st : ConnectionState) (globallyListened : Bool)
    (payload : Value) : ConnectionState :=
  let st' := if globallyListened then handleGlobalAccountsChanged st payload else st
  scopedAccountsChanged st' payload

/-- Delivery of one `chainChanged` emission from the connected capability
handle, global handler first, then the connection-scoped one. -/
def deliverChainChanged (st : ConnectionState) (globallyListened : Bool)
    (newChainId : Value) : ConnectionState :=
  let st' := if globallyListened then handleGlobalChainChanged st newChainId else st
  scopedChainChanged st' newChainId

/-- The host environment's behaviour for the requests one `connect` attempt
issues against the resolved capability handle. The two inner-fallback fields
summarise code whose outcome the modelled paths consume whole:
`innerFallbackAccounts` is the result of the MetaMask-specific fallback dance
in `requestAccounts` (walletActions lines 160–308), consulted only when the
primary safe request fails, and `outerDirectAccounts` is the last-resort
direct `eth_requestAccounts` call in the outer `catch` (lines 410–435). -/
structure ProviderResponses : Type where
  requestAccountsOutcome : RequestOutcome
  requestAccountsWithinTimeout : Bool
  innerFallbackAccounts : Except Web3ProviderError Value
  outerDirectAccounts : RequestOutcome
  chainIdDirect : RequestOutcome
  chainIdFallbackOutcome : RequestOutcome
  chainIdFallbackWithinTimeout : Bool

/-- What one `connect` attempt observes: the fresh `detectProviders()` scan
result, and the provider responses for this attempt. -/
structure AttemptEnv : Type where
  detected : List DetectedWalletProvider
  responses : ProviderResponses

/-- Function `walletActions.requestAccounts`, at the level the connection state
machine consumes it. The primary path is `safeProviderRequest(provider,
'eth_requestAccounts', [], timeout)`; on its failure the inner fallback's
outcome is used instead. Whatever arrives is then checked by
`!Array.isArray(accounts) || accounts.length === 0`, which throws
`UNAUTHORIZED('No accounts returned from provider')`. The `setAddress` side
channel that follows is non-fatal and does not alter the returned accounts,
so it has no footprint here. Any error then falls into the outer `catch`,
whose `error.code === 4001` comparison can never fire (every error reaching
it carries a string code), and which ends in one more direct request: on
resolution it returns `Array.isArray(accounts) ? accounts : []` — possibly
empty — and on rejection it wraps the earlier error as `JSON_RPC_ERROR`. -/
def requestAccounts (resp : ProviderResponses) (timeoutMs : Nat) :
    Except Web3ProviderError (List Value) :=
  let primary :=
    safeProviderRequest resp.requestAccountsOutcome resp.requestAccountsWithinTimeout
      "eth_requestAccounts" [] timeoutMs
  let afterFallback : Except Web3ProviderError Value :=
    match primary with
    | .ok v => .ok v
    | .error _ => resp.innerFallbackAccounts
  let checked : Except Web3ProviderError (List Value) :=
    match afterFallback with
    | .ok (.vArr xs) =>
      if xs.isEmpty then
        .error
          { message := "No accounts returned from provider"
            code := ERROR_CODES.UNAUTHORIZED
            data := [("method", .vStr "eth_requestAccounts")] }
      else .ok xs
    | .ok _ =>
      .error
        { message := "No accounts returned from provider"
          code := ERROR_CODES.UNAUTHORIZED
          data := [("method", .vStr "eth_requestAccounts")] }
    | .error e => .error e
  match checked with
  | .ok xs => .ok xs
  | .error e =>
    match resp.outerDirectAccounts with
    | .resolves v =>
      .ok (match v with
           | .vArr xs => xs
           | _ => [])
    | .rejects _ _ =>
      .error
        { message := if e.message = "" then "Failed to request accounts" else e.message
          code := ERROR_CODES.JSON_RPC_ERROR
          data := [("method", .vStr "eth_requestAccounts")] }

/-- The chain-id step of a `connect` attempt: a direct
`provider.request({method: 'eth_chainId', params: []})` first (no unwrap, no
timeout), then the `safeProviderRequest` fallback, and if both fail a
`JSON_RPC_ERROR` built from the direct error's message. -/
def getChainId (resp : ProviderResponses) (timeoutMs : Nat) :
    Except Web3ProviderError Value :=
  match resp.chainIdDirect with
  | .resolves v => .ok v
  | .rejects _ msg =>
    match
      safeProviderRequest resp.chainIdFallbackOutcome resp.chainIdFallbackWithinTimeout
        "eth_chainId" [] timeoutMs with
    | .ok v => .ok v
    | .error _ =>
      .error
        { message := if msg = "" then "Failed to get chain ID" else msg
          code := ERROR_CODES.JSON_RPC_ERROR
          data := [("method", .vStr "eth_chainId")] }

/-- What a successful `connect` attempt hands back for the commit:
`{accounts, chainId, providerInfo, cleanup}` (the cleanup closure has no
`ConnectionState` footprint and is omitted). -/
structure AttemptResult : Type where
  providerInfo : DetectedWalletProvider
  accounts : List Value
  chainId : Value

/-- One attempt of `connect`'s retried operation: refresh the scan, resolve
the named provider (failing with `ProviderNotFoundError`), check its handle
has a callable `request` (failing with `UNSUPPORTED_METHOD`), detach/attach
listeners (no `ConnectionState` footprint), request accounts, then the chain
id. -/
def connectAttempt (name : String) (env : AttemptEnv) (timeoutMs : Nat) :
    Except Web3ProviderError AttemptResult :=
  match env.detected.find? (fun p => p.name == name) with
  | none => .error (providerNotFoundError name)
  | some providerInfo =>
    if !providerInfo.hasRequest then
      .error
        { message := "Provider \"" ++ name ++ "\" does not support EIP-1193 requests"
          code := ERROR_CODES.UNSUPPORTED_METHOD
          data := [("providerName", .vStr name)] }
    else
      match requestAccounts env.responses timeoutMs with
      | .error e => .error e
      | .ok accounts =>
        match getChainId env.responses timeoutMs with
        | .error e => .error e
        | .ok chainId => .ok { providerInfo := providerInfo, accounts := accounts, chainId := chainId }

/-- The exponential backoff of `retryOperation`:
`Math.min(1000 * Math.pow(2, attempt), 10000)`. -/
def backoffDelay (attempt : Nat) : Nat :=
  min (1000 * 2 ^ attempt) 10000

/-- The observable trace of one `retryOperation` run: its result, the
backoff delays awaited between attempts, and how many attempts ran (each
attempt of `connect`'s operation opens with one fresh provider scan). -/
structure RetryRun (α : Type) : Type where
  result : Except Web3ProviderError α
  delays : List Nat
  attemptsMade : Nat

/-- The loop body of `retryOperation`, with `remaining = maxRetries -
attempt` retries left: return the first success; on failure with no retries
left re-throw that failure, otherwise wait `backoffDelay attempt` and go
again. -/
def retryGo {α : Type} (op : Nat → Except Web3ProviderError α) :
    Nat → Nat → RetryRun α
  | 0, attempt =>
    match op attempt with
    | .ok a => { result := .ok a, delays := [], attemptsMade := 1 }
    | .error e => { result := .error e, delays := [], attemptsMade := 1 }
  | r + 1, attempt =>
    match op attempt with
    | .ok a => { result := .ok a, delays := [], attemptsMade := 1 }
    | .error _ =>
      let rest := retryGo op r (attempt + 1)
      { result := rest.result
        delays := backoffDelay attempt :: rest.delays
        attemptsMade := rest.attemptsMade + 1 }

/-- Function `retryOperation` from `useWeb3Provider`: up to `maxRetries + 1` attempts
starting at attempt 0. -/
def retryOperation {α : Type} (op : Nat → Except Web3ProviderError α)
    (maxRetries : Nat) : RetryRun α :=
  retryGo op maxRetries 0

/-- Default `maxRetries` of `DEFAULT_CONFIG` in `constants.ts`. -/
def defaultMaxRetries : Nat := 3

/-- Default `requestTimeout` of `DEFAULT_CONFIG` in `constants.ts`. -/
def defaultRequestTimeout : Nat := 30000

/-- The observable trace of one `connect(name)` call: the state it leaves
behind, the settlement of the returned promise, the backoff delays awaited,
and the number of provider scans performed. -/
structure ConnectRun : Type where
  finalState : ConnectionState
  result : Except Web3ProviderError AttemptResult
  delays : List Nat
  scans : Nat

/-- Function `connect` from `useWeb3Provider`, taken as one atomic step (no events
interleave): enter `connecting` with the error cleared, run the attempt
under `retryOperation`, and either commit
`{currentProvider, accounts, chainId, status: connected, error: null}` or
store the final error (`handleError` keeps a `Web3ProviderError` as-is),
set `status` to `error`, and re-throw that same error. -/
def connect (st : ConnectionState) (name : String) (envs : Nat → AttemptEnv)
    (maxRetries timeoutMs : Nat) : ConnectRun :=
  let st₁ := { st with lastError := none, status := .connecting }
  let run := retryOperation (fun attempt => connectAttempt name (envs attempt) timeoutMs)
      maxRetries
  { finalState :=
      match run.result with
      | .ok r =>
        { st₁ with
          currentProvider := some r.providerInfo
          accounts := r.accounts
          chainId := normalizeNullable r.chainId
          status := .connected
          lastError := none }
      | .error e => { st₁ with lastError := some e, status := .error }
    result := run.result, delays := run.delays, scans := run.attemptsMade }

/-- The connection states reachable from the initial state through the
modelled operations, with every `connect` step drawing its per-attempt
environments from a class `P` (instantiate `P` with `fun _ => True` for
arbitrary host behaviour). -/
inductive Reachable (P : AttemptEnv → Prop) : ConnectionState → Prop
  | init : Reachable P initialState
  | connectStep {st : ConnectionState} (name : String) (envs : Nat → AttemptEnv)
      (maxRetries timeoutMs : Nat) :
      Reachable P st → (∀ i, P (envs i)) →
      Reachable P (connect st name envs maxRetries timeoutMs).finalState
  | disconnectStep {st : ConnectionState} :
      Reachable P st → Reachable P (disconnect st)
  | clearErrorStep {st : ConnectionState} :
      Reachable P st → Reachable P (clearError st)
  | accountsEvent {st : ConnectionState} (globallyListened : Bool) (payload : Value) :
      Reachable P st → Reachable P (deliverAccountsChanged st globallyListened payload)
  | chainEvent {st : ConnectionState} (globallyListened : Bool) (newChainId : Value) :
      Reachable P st → Reachable P (deliverChainChanged st globallyListened newChainId)
  | disconnectEvent {st : ConnectionState} (derivedMessage : String) :
      Reachable P st → Reachable P (connectOnDisconnect st derivedMessage)

/-! Concrete host environments used to evaluate the model on explicit
inputs. -/

/-- A well-formed address for concrete runs. -/
def demoAddr : String := "0x1111111111111111111111111111111111111111"

/-- A detected MetaMask provider entry (detection guarantees a callable
`request`). -/
def metamaskInfo : DetectedWalletProvider :=
  { name := "metamask", hasRequest := true, isConnectedHint := false }

/-- A well-behaved host: accounts resolve to one valid address, the direct
chain-id request resolves to `0x1`; the fallback channels are never
consulted. -/
def goodResponses : ProviderResponses :=
  { requestAccountsOutcome := .resolves (.vArr [.vStr demoAddr])
    requestAccountsWithinTimeout := true
    innerFallbackAccounts :=
      .error { message := "unused", code := ERROR_CODES.INTERNAL_ERROR, data := [] }
    outerDirectAccounts := .rejects none ""
    chainIdDirect := .resolves (.vStr "0x1")
    chainIdFallbackOutcome := .rejects none ""
    chainIdFallbackWithinTimeout := true }

/-- Scan finds MetaMask; responses are well-behaved. -/
def goodEnv : AttemptEnv :=
  { detected := [metamaskInfo], responses := goodResponses }

/-- Scan finds nothing at all (the requested endpoint is not injected). -/
def notFoundEnv : AttemptEnv :=
  { detected := [], responses := goodResponses }

/-- A misbehaving host: the account list holds a malformed address and the
chain-id request resolves to a non-hex string; `connect` commits both
unvalidated. -/
def badValueResponses : ProviderResponses :=
  { goodResponses with
    requestAccountsOutcome := .resolves (.vArr [.vStr "nonsense"])
    chainIdDirect := .resolves (.vStr "banana") }

/-- Scan finds MetaMask; responses carry malformed values. -/
def badValueEnv : AttemptEnv :=
  { detected := [metamaskInfo], responses := badValueResponses }

/-- The state after a successful `connect("metamask")` against `goodEnv`
under the default configuration. -/
def goodConnectedState : ConnectionState :=
  (connect initialState "metamask" (fun _ => goodEnv) defaultMaxRetries
    defaultRequestTimeout).finalState

/-- The state after that successful connect is followed by a failed
`connect("metamask")` whose scans never find the endpoint: the old
connection data survives into the `error` status. -/
def failedReconnectState : ConnectionState :=
  (connect goodConnectedState "metamask" (fun _ => notFoundEnv) defaultMaxRetries
    defaultRequestTimeout).finalState

/-- The state after a successful `connect("metamask")` against the
misbehaving `badValueEnv`. -/
def badConnectedState : ConnectionState :=
  (connect initialState "metamask" (fun _ => badValueEnv) defaultMaxRetries
    defaultRequestTimeout).finalState

/-- The state after a failed first `connect("metamask")` from the initial
state, against empty scans: an `error` state with no committed endpoint. -/
def c10ErrorState : ConnectionState :=
  (connect initialState "metamask" (fun _ => notFoundEnv) defaultMaxRetries
    defaultRequestTimeout).finalState

/-- Hosts whose chain-id responses respect the declared TypeScript types
(`eth_chainId` resolves to a string, both on the direct path and after the
fallback's envelope unwrap). The raw capability contract is `Promise<any>`,
so this is a genuine assumption on the host, not something the code checks. -/
def ChainWellTyped (env : AttemptEnv) : Prop :=
  (∀ v, env.responses.chainIdDirect = RequestOutcome.resolves v → isStringV v = true) ∧
  (∀ v, env.responses.chainIdFallbackOutcome = RequestOutcome.resolves v →
    isStringV (unwrapResponse v) = true)

/-- The one direction of the spec's connected-state invariant that the code
maintains: a connected state has a current provider and a chain id. -/
def ConnInv (st : ConnectionState) : Prop :=
  st.status = .connected → st.currentProvider ≠ none ∧ st.chainId ≠ none

/-!  Theorems about the embedded program, one per claim (with witnesses and
counterexamples where called for). -/

/-- Claim C3 (confirmed): whenever the underlying request of
`safeProviderRequest` fails, the promise rejects with a typed
`Web3ProviderError` — never the raw host error — whose kind follows the raw
error's numeric code (4001 `USER_REJECTED`, 4100 `UNAUTHORIZED`, 4200
`UNSUPPORTED_METHOD`, 4900/4901 `NETWORK_ERROR`), every other failure giving
`JSON_RPC_ERROR`; all carry the `{method, params}` context, and the CJS build
classifies identically. -/
theorem c3_error_taxonomy (code : Option Int) (msg method : String)
    (params : List Value) (timeoutMs : Nat) :
    errCodeOf (safeProviderRequest (.rejects code msg) true method params timeoutMs)
        = some
          (if code = some 4001 then ERROR_CODES.USER_REJECTED
           else if code = some 4100 then ERROR_CODES.UNAUTHORIZED
           else if code = some 4200 then ERROR_CODES.UNSUPPORTED_METHOD
           else if code = some 4900 ∨ code = some 4901 then ERROR_CODES.NETWORK_ERROR
           else ERROR_CODES.JSON_RPC_ERROR)
      ∧ errDataOf (safeProviderRequest (.rejects code msg) true method params timeoutMs)
          = some [("method", .vStr method), ("params", .vArr params)]
      ∧ safeProviderRequestDist (.rejects code msg) true method params timeoutMs
          = safeProviderRequest (.rejects code msg) true method params timeoutMs := by
  refine ⟨?_, ?_, rfl⟩
  · simp only [safeProviderRequest, errCodeOf, classifyCaught, if_true]
    split_ifs <;> simp_all
  · simp only [safeProviderRequest, errDataOf, classifyCaught, if_true]
    split_ifs <;> simp_all

/-- Claim C4 (corrected), the amended statement: on a successful request
whose raw result is an object, the ESM build resolves with the `result`
binding when one exists (so `result` wins over `data`), else with the `data`
binding, else with the raw object; the CJS `dist` build does the same but
only counts bindings whose value is not `undefined`. -/
theorem c4_unwrap_priority (fields : List (String × Value)) (method : String)
    (params : List Value) (timeoutMs : Nat) :
    (∀ r, getField fields "result" = some r →
      safeProviderRequest (.resolves (.vObj fields)) true method params timeoutMs = .ok r)
    ∧ (getField fields "result" = none → ∀ d, getField fields "data" = some d →
      safeProviderRequest (.resolves (.vObj fields)) true method params timeoutMs = .ok d)
    ∧ (getField fields "result" = none → getField fields "data" = none →
      safeProviderRequest (.resolves (.vObj fields)) true method params timeoutMs
        = .ok (.vObj fields))
    ∧ (∀ r, getDefinedField fields "result" = some r →
      safeProviderRequestDist (.resolves (.vObj fields)) true method params timeoutMs
        = .ok r)
    ∧ (getDefinedField fields "result" = none →
       ∀ d, getDefinedField fields "data" = some d →
      safeProviderRequestDist (.resolves (.vObj fields)) true method params timeoutMs
        = .ok d)
    ∧ (getDefinedField fields "result" = none → getDefinedField fields "data" = none →
      safeProviderRequestDist (.resolves (.vObj fields)) true method params timeoutMs
        = .ok (.vObj fields)) := by
  refine ⟨?_, ?_, ?_, ?_, ?_, ?_⟩ <;>
    · intros
      simp_all [safeProviderRequest, safeProviderRequestDist, unwrapResponse,
        unwrapResponseDist]

/-- Claim C4 witness: with both envelope keys present and defined, the call
resolves with the `result` value. -/
theorem c4_unwrap_priority_witness :
    safeProviderRequest
        (.resolves (.vObj [("result", Value.vNum 1), ("data", Value.vNum 2)])) true
        "eth_accounts" [] 30000 = .ok (Value.vNum 1) :=
  (c4_unwrap_priority [("result", Value.vNum 1), ("data", Value.vNum 2)]
    "eth_accounts" [] 30000).1 (Value.vNum 1) rfl

/-- Claim C4 counterexample: the CJS `dist` build, on an object that does
contain a `result` key (valued `undefined`) next to a `data` key, resolves
with the `data` value rather than the `result` key's value — so "if the
object contains a `result` key, the call resolves with that key's value"
fails on that build. -/
theorem c4_counterexample :
    getField [("result", Value.vUndefined), ("data", Value.vNum 5)] "result"
        = some Value.vUndefined
    ∧ safeProviderRequestDist
        (.resolves (.vObj [("result", Value.vUndefined), ("data", Value.vNum 5)])) true
        "eth_accounts" [] 30000 = .ok (Value.vNum 5)
    ∧ Except.ok (ε := Web3ProviderError) (Value.vNum 5) ≠ .ok Value.vUndefined := by
  refine ⟨rfl, rfl, ?_⟩
  intro h
  injection h with h'
  exact Value.noConfusion h'

/-- Claim C5 (corrected), the amended statement: when the request outlives
`timeoutMs`, `safeProviderRequest` rejects with a typed error of kind
`JSON_RPC_ERROR` carrying the message `Request timeout` (the internal timer
error's `RESOURCE_UNAVAILABLE` kind is re-wrapped by the catch block), and
the abandoned call's eventual outcome has no effect on the result: two hosts
whose slow requests would settle arbitrarily differently produce identical
rejections, and the wrapper reads or writes no connection state at all. -/
theorem c5_timeout_behavior (o₁ o₂ : RequestOutcome) (method : String)
    (params : List Value) (timeoutMs : Nat) :
    safeProviderRequest o₁ false method params timeoutMs
        = safeProviderRequest o₂ false method params timeoutMs
    ∧ errCodeOf (safeProviderRequest o₁ false method params timeoutMs)
        = some ERROR_CODES.JSON_RPC_ERROR
    ∧ errMessageOf (safeProviderRequest o₁ false method params timeoutMs)
        = some "Request timeout"
    ∧ safeProviderRequestDist o₁ false method params timeoutMs
        = safeProviderRequest o₁ false method params timeoutMs :=
  ⟨rfl, rfl, rfl, rfl⟩

/-- Claim C5 counterexample: the timed-out call's rejection kind is
`JSON_RPC_ERROR` — not a dedicated timeout kind, and not even the
`RESOURCE_UNAVAILABLE` kind the internal `createTimeoutPromise` rejection
carries — so "rejects with kind Timeout" fails as stated. -/
theorem c5_counterexample :
    errCodeOf (safeProviderRequest (.resolves (.vStr "0x1")) false "eth_chainId" [] 5000)
        = some ERROR_CODES.JSON_RPC_ERROR
    ∧ (createTimeoutError 5000).code = ERROR_CODES.RESOURCE_UNAVAILABLE
    ∧ errMessageOf
        (safeProviderRequest (.resolves (.vStr "0x1")) false "eth_chainId" [] 5000)
        = some "Request timeout"
    ∧ ERROR_CODES.JSON_RPC_ERROR ≠ ERROR_CODES.RESOURCE_UNAVAILABLE := by
  exact ⟨rfl, rfl, rfl, by decide⟩

/-- Helper: a run of `retryGo` whose first `k` attempts fail and whose
attempt `k` succeeds returns that success after exactly the `k` backoff
delays of the failed attempts. -/
theorem retryGo_succeeds_after_failures {α : Type} (op : Nat → Except Web3ProviderError α) :
    ∀ (k remaining attempt : Nat), k ≤ remaining →
      (∀ i, i < k → ∃ e, op (attempt + i) = Except.error e) →
      (∃ a, op (attempt + k) = Except.ok a) →
      retryGo op remaining attempt =
        { result := op (attempt + k)
          delays := (List.range k).map (fun j => backoffDelay (attempt + j))
          attemptsMade := k + 1 } := by
  intro k
  induction k with
  | zero =>
    intro remaining attempt _ _ hok
    obtain ⟨a, ha⟩ := hok
    rw [Nat.add_zero] at ha
    cases remaining <;> simp [retryGo, ha]
  | succ k ih =>
    intro remaining attempt hk herr hok
    obtain ⟨e, he⟩ := herr 0 (Nat.succ_pos k)
    rw [Nat.add_zero] at he
    obtain ⟨r, rfl⟩ : ∃ r, remaining = r + 1 := ⟨remaining - 1, by omega⟩
    have ihres := ih r (attempt + 1) (by omega)
      (fun i hi => by
        obtain ⟨e', he'⟩ := herr (i + 1) (by omega)
        exact ⟨e', by rw [← he']; congr 1; omega⟩)
      (by
        obtain ⟨a, ha⟩ := hok
        exact ⟨a, by rw [← ha]; congr 1; omega⟩)
    simp only [retryGo, he]
    rw [ihres]
    simp only [RetryRun.mk.injEq]
    refine ⟨congrArg op (by omega), ?_, trivial⟩
    rw [List.range_succ_eq_map, List.map_cons, List.map_map]
    refine congrArg₂ List.cons (by simp) ?_
    exact congrArg (fun f => List.map f (List.range k))
      (funext fun j => congrArg backoffDelay (by omega))

/-- Helper: a run of `retryGo` all of whose attempts fail re-throws the last
attempt's error after all `remaining` backoff delays. -/
theorem retryGo_exhaust {α : Type} (op : Nat → Except Web3ProviderError α) :
    ∀ (remaining attempt : Nat),
      (∀ i, i ≤ remaining → ∃ e, op (attempt + i) = Except.error e) →
      retryGo op remaining attempt =
        { result := op (attempt + remaining)
          delays := (List.range remaining).map (fun j => backoffDelay (attempt + j))
          attemptsMade := remaining + 1 } := by
  intro remaining
  induction remaining with
  | zero =>
    intro attempt herr
    obtain ⟨e, he⟩ := herr 0 (Nat.le_refl 0)
    rw [Nat.add_zero] at he
    simp [retryGo, he]
  | succ r ih =>
    intro attempt herr
    obtain ⟨e, he⟩ := herr 0 (by omega)
    rw [Nat.add_zero] at he
    have ihres := ih (attempt + 1) (fun i hi => by
      obtain ⟨e', he'⟩ := herr (i + 1) (by omega)
      exact ⟨e', by rw [← he']; congr 1; omega⟩)
    simp only [retryGo, he]
    rw [ihres]
    simp only [RetryRun.mk.injEq]
    refine ⟨congrArg op (by omega), ?_, trivial⟩
    rw [List.range_succ_eq_map, List.map_cons, List.map_map]
    refine congrArg₂ List.cons (by simp) ?_
    exact congrArg (fun f => List.map f (List.range r))
      (funext fun j => congrArg backoffDelay (by omega))

/-- Helper: a successful `retryGo` result was produced by one of the
attempts. -/
theorem retryGo_result_ok {α : Type} (op : Nat → Except Web3ProviderError α) :
    ∀ (remaining attempt : Nat) (a : α),
      (retryGo op remaining attempt).result = Except.ok a → ∃ i, op i = Except.ok a := by
  intro remaining
  induction remaining with
  | zero =>
    intro attempt a h
    cases hop : op attempt with
    | ok b => exact ⟨attempt, by simp [retryGo, hop] at h; rw [hop, h]⟩
    | error e => simp [retryGo, hop] at h
  | succ r ih =>
    intro attempt a h
    cases hop : op attempt with
    | ok b => exact ⟨attempt, by simp [retryGo, hop] at h; rw [hop, h]⟩
    | error e =>
      simp only [retryGo, hop] at h
      exact ih (attempt + 1) a h

/-- Helper: the delays, scan count and promise settlement of `connect` are
those of its inner `retryOperation` run. -/
theorem connect_components (st : ConnectionState) (name : String)
    (envs : Nat → AttemptEnv) (maxRetries timeoutMs : Nat) :
    (connect st name envs maxRetries timeoutMs).delays
        = (retryOperation (fun attempt => connectAttempt name (envs attempt) timeoutMs)
            maxRetries).delays
    ∧ (connect st name envs maxRetries timeoutMs).scans
        = (retryOperation (fun attempt => connectAttempt name (envs attempt) timeoutMs)
            maxRetries).attemptsMade
    ∧ (connect st name envs maxRetries timeoutMs).result
        = (retryOperation (fun attempt => connectAttempt name (envs attempt) timeoutMs)
            maxRetries).result :=
  ⟨rfl, rfl, rfl⟩

/-- Helper: when the retried operation ends in an error, `connect` stores
that same error, moves to the `error` status, and re-throws it, leaving the
other state fields as they were. -/
theorem connect_error_case {st : ConnectionState} {name : String}
    {envs : Nat → AttemptEnv} {maxRetries timeoutMs : Nat} {e : Web3ProviderError}
    (h : (retryOperation (fun attempt => connectAttempt name (envs attempt) timeoutMs)
        maxRetries).result = Except.error e) :
    (connect st name envs maxRetries timeoutMs).finalState
        = { st with lastError := some e, status := .error }
    ∧ (connect st name envs maxRetries timeoutMs).result = Except.error e := by
  simp only [connect]
  rw [h]
  exact ⟨rfl, rfl⟩

/-- Claim C6 (confirmed): in `connect`'s bounded-retry loop, a run whose
first `k` attempts fail waits exactly `min(1000·2^attempt, 10000)` ms after
each failed attempt and re-scans on every attempt (one scan per attempt);
and when the whole budget of `maxRetries + 1` attempts is exhausted, the
status becomes `error`, the last attempt's error is stored in `lastError`,
and that same error is re-thrown to the caller. -/
theorem c6_backoff_and_exhaustion (st : ConnectionState) (name : String)
    (envs : Nat → AttemptEnv) (maxRetries timeoutMs : Nat) :
    (∀ k, k ≤ maxRetries →
      (∀ i, i < k → ∃ e, connectAttempt name (envs i) timeoutMs = Except.error e) →
      (∃ a, connectAttempt name (envs k) timeoutMs = Except.ok a) →
      (connect st name envs maxRetries timeoutMs).delays
          = (List.range k).map (fun attempt => min (1000 * 2 ^ attempt) 10000)
        ∧ (connect st name envs maxRetries timeoutMs).scans = k + 1)
    ∧ (∀ e,
      (∀ i, i < maxRetries → ∃ e', connectAttempt name (envs i) timeoutMs = Except.error e') →
      connectAttempt name (envs maxRetries) timeoutMs = Except.error e →
      (connect st name envs maxRetries timeoutMs).delays
          = (List.range maxRetries).map (fun attempt => min (1000 * 2 ^ attempt) 10000)
        ∧ (connect st name envs maxRetries timeoutMs).scans = maxRetries + 1
        ∧ (connect st name envs maxRetries timeoutMs).result = Except.error e
        ∧ (connect st name envs maxRetries timeoutMs).finalState.status = .error
        ∧ (connect st name envs maxRetries timeoutMs).finalState.lastError = some e) := by
  obtain ⟨hdelays, hscans, hresult⟩ := connect_components st name envs maxRetries timeoutMs
  have hback : ∀ l : List Nat,
      l.map (fun j => backoffDelay (0 + j))
        = l.map (fun attempt => min (1000 * 2 ^ attempt) 10000) :=
    fun l => congrArg (fun f => List.map f l)
      (funext fun j => by simp [backoffDelay])
  constructor
  · intro k hk herr hok
    have hrun := retryGo_succeeds_after_failures
      (fun attempt => connectAttempt name (envs attempt) timeoutMs) k maxRetries 0 hk
      (fun i hi => by simpa using herr i hi) (by simpa using hok)
    rw [retryOperation] at hdelays hscans
    rw [hrun] at hdelays hscans
    refine ⟨?_, hscans⟩
    rw [hdelays]
    exact hback (List.range k)
  · intro e herr hlast
    have hall : ∀ i, i ≤ maxRetries →
        ∃ e', connectAttempt name (envs (0 + i)) timeoutMs = Except.error e' := by
      intro i hi
      rcases Nat.lt_or_ge i maxRetries with hlt | hge
      · simpa using herr i hlt
      · have : i = maxRetries := by omega
        subst this
        exact ⟨e, by simpa using hlast⟩
    have hrun := retryGo_exhaust
      (fun attempt => connectAttempt name (envs attempt) timeoutMs) maxRetries 0 hall
    have hres : (retryOperation
        (fun attempt => connectAttempt name (envs attempt) timeoutMs)
          maxRetries).result = Except.error e := by
      rw [retryOperation, hrun]
      simpa using hlast
    obtain ⟨hstate, hthrow⟩ := connect_error_case hres
    rw [retryOperation] at hdelays hscans
    rw [hrun] at hdelays hscans
    refine ⟨?_, hscans, hthrow, ?_, ?_⟩
    · rw [hdelays]
      exact hback (List.range maxRetries)
    · rw [hstate]
    · rw [hstate]

/-- Claim C6 witness: against an environment whose scans never contain the
endpoint, the default-configured `connect` waits 1000, 2000 and 4000 ms,
performs four scans, ends in the `error` status and stores the
`ProviderNotFoundError`. -/
theorem c6_witness :
    (connect initialState "metamask" (fun _ => notFoundEnv) defaultMaxRetries
        defaultRequestTimeout).delays = [1000, 2000, 4000]
    ∧ (connect initialState "metamask" (fun _ => notFoundEnv) defaultMaxRetries
        defaultRequestTimeout).scans = 4
    ∧ (connect initialState "metamask" (fun _ => notFoundEnv) defaultMaxRetries
        defaultRequestTimeout).finalState.status = .error
    ∧ (connect initialState "metamask" (fun _ => notFoundEnv) defaultMaxRetries
        defaultRequestTimeout).finalState.lastError
        = some (providerNotFoundError "metamask") := by
  obtain ⟨hd, hs, _, hstat, herr⟩ :=
    (c6_backoff_and_exhaustion initialState "metamask" (fun _ => notFoundEnv)
        defaultMaxRetries defaultRequestTimeout).2 (providerNotFoundError "metamask")
      (fun i _ => ⟨providerNotFoundError "metamask", rfl⟩) rfl
  exact ⟨hd.trans (by decide), hs, hstat, herr⟩

/-- Claim C2 (corrected), the amended statement: when no scan ever detects
the requested endpoint, `connect` rejects with the `ProviderNotFoundError`
(kind `PROVIDER_NOT_FOUND`) only after `maxRetries + 1` provider scans —
the not-found failure is retried like any other — with backoff delays
`min(1000·2^attempt, 10000)` ms between consecutive attempts, and the final
state carries `status = error` with that error stored. -/
theorem c2_not_found_retries_then_error (st : ConnectionState) (name : String)
    (envs : Nat → AttemptEnv) (maxRetries timeoutMs : Nat)
    (h : ∀ i, ((envs i).detected.find? (fun p => p.name == name)) = none) :
    (connect st name envs maxRetries timeoutMs).result
        = Except.error (providerNotFoundError name)
    ∧ (connect st name envs maxRetries timeoutMs).scans = maxRetries + 1
    ∧ (connect st name envs maxRetries timeoutMs).delays
        = (List.range maxRetries).map (fun attempt => min (1000 * 2 ^ attempt) 10000)
    ∧ (connect st name envs maxRetries timeoutMs).finalState.status = .error
    ∧ (connect st name envs maxRetries timeoutMs).finalState.lastError
        = some (providerNotFoundError name) := by
  have hatt : ∀ i, connectAttempt name (envs i) timeoutMs
      = Except.error (providerNotFoundError name) := by
    intro i
    unfold connectAttempt
    rw [h i]
  obtain ⟨hdelays, hscans, hresult⟩ := connect_components st name envs maxRetries timeoutMs
  have hrun := retryGo_exhaust
    (fun attempt => connectAttempt name (envs attempt) timeoutMs) maxRetries 0
    (fun i _ => ⟨providerNotFoundError name, hatt (0 + i)⟩)
  have hres : (retryOperation
      (fun attempt => connectAttempt name (envs attempt) timeoutMs)
        maxRetries).result = Except.error (providerNotFoundError name) := by
    rw [retryOperation, hrun]
    simpa using hatt (0 + maxRetries)
  obtain ⟨hstate, hthrow⟩ := connect_error_case hres
  rw [retryOperation] at hdelays hscans
  rw [hrun] at hdelays hscans
  refine ⟨hthrow, hscans, ?_, ?_, ?_⟩
  · rw [hdelays]
    exact congrArg (fun f => List.map f (List.range maxRetries))
      (funext fun j => by simp [backoffDelay])
  · rw [hstate]
  · rw [hstate]

/-- Claim C2 witness: a concrete run with empty scans under the default
configuration. -/
theorem c2_witness :
    (connect initialState "metamask" (fun _ => notFoundEnv) defaultMaxRetries
        defaultRequestTimeout).result = Except.error (providerNotFoundError "metamask")
    ∧ (connect initialState "metamask" (fun _ => notFoundEnv) defaultMaxRetries
        defaultRequestTimeout).scans = defaultMaxRetries + 1 :=
  have h := c2_not_found_retries_then_error initialState "metamask"
    (fun _ => notFoundEnv) defaultMaxRetries defaultRequestTimeout (fun _ => rfl)
  ⟨h.1, h.2.1⟩

/-- Claim C2 counterexample: with the default budget the missing-endpoint
`connect` performs four scans (not one) and awaits the non-empty backoff
delays 1000, 2000 and 4000 ms (not none) before rejecting with
`PROVIDER_NOT_FOUND`, refuting "after exactly one scan, without any retry
attempt or backoff delay". -/
theorem c2_counterexample :
    (connect initialState "metamask" (fun _ => notFoundEnv) defaultMaxRetries
        defaultRequestTimeout).scans = 4
    ∧ (connect initialState "metamask" (fun _ => notFoundEnv) defaultMaxRetries
        defaultRequestTimeout).delays = [1000, 2000, 4000]
    ∧ (connect initialState "metamask" (fun _ => notFoundEnv) defaultMaxRetries
        defaultRequestTimeout).result = Except.error (providerNotFoundError "metamask")
    ∧ (4 : Nat) ≠ 1
    ∧ ([1000, 2000, 4000] : List Nat) ≠ [] :=
  ⟨rfl, rfl, rfl, by decide, by decide⟩

/-- Helper: `clearError` preserves the connected-state invariant. -/
theorem connInv_clearError {st : ConnectionState} (h : ConnInv st) :
    ConnInv (clearError st) := by
  unfold ConnInv clearError
  by_cases hs : st.status = .error
  · simp [hs]
  · simpa [hs] using h

/-- Helper: `disconnect` preserves the connected-state invariant. -/
theorem connInv_disconnect {st : ConnectionState} (h : ConnInv st) :
    ConnInv (disconnect st) := by
  unfold ConnInv disconnect
  cases hp : st.currentProvider with
  | none =>
    simp only [hp]
    intro hc
    exact ⟨hp ▸ (h hc).1, (h hc).2⟩
  | some p => simp [hp]

/-- Helper: the global accounts handler preserves the connected-state
invariant. -/
theorem connInv_globalAccounts {st : ConnectionState} (h : ConnInv st)
    (payload : Value) : ConnInv (handleGlobalAccountsChanged st payload) := by
  unfold ConnInv handleGlobalAccountsChanged
  by_cases he : (match payload with
    | Value.vArr xs => xs.filter isTruthyString
    | _ => ([] : List Value)).isEmpty
  · simp [he]
  · simpa [he] using h

/-- Helper: the global chain handler preserves the connected-state
invariant. -/
theorem connInv_globalChain {st : ConnectionState} (h : ConnInv st) (v : Value) :
    ConnInv (handleGlobalChainChanged st v) := by
  cases v with
  | vStr s =>
    by_cases hs : s = ""
    · simpa [ConnInv, handleGlobalChainChanged, hs] using h
    · intro hc
      simp only [handleGlobalChainChanged, if_neg hs] at hc ⊢
      exact ⟨(h hc).1, by simp⟩
  | vUndefined => exact h
  | vNull => exact h
  | vBool b => exact h
  | vNum n => exact h
  | vArr xs => exact h
  | vObj fs => exact h

/-- Helper: the connection-scoped accounts callback preserves the
connected-state invariant. -/
theorem connInv_connectOnAccounts {st : ConnectionState} (h : ConnInv st)
    (xs : List Value) : ConnInv (connectOnAccountsChanged st xs) := by
  unfold ConnInv connectOnAccountsChanged
  by_cases he : (xs.filter isTruthyString).isEmpty
  · simp [he]
  · simpa [he] using h

/-- Helper: the connection-scoped chain callback preserves the
connected-state invariant. -/
theorem connInv_connectOnChain {st : ConnectionState} (h : ConnInv st) (v : Value) :
    ConnInv (connectOnChainChanged st v) := by
  cases v with
  | vStr s =>
    by_cases hs : s = ""
    · simpa [ConnInv, connectOnChainChanged, hs] using h
    · intro hc
      simp only [connectOnChainChanged, if_neg hs] at hc ⊢
      exact ⟨(h hc).1, by simp⟩
  | vUndefined => exact h
  | vNull => exact h
  | vBool b => exact h
  | vNum n => exact h
  | vArr xs => exact h
  | vObj fs => exact h

/-- Helper: a scoped accounts event preserves the connected-state
invariant. -/
theorem connInv_scopedAccounts {st : ConnectionState} (h : ConnInv st)
    (payload : Value) : ConnInv (scopedAccountsChanged st payload) :=
  connInv_connectOnAccounts h _

/-- Helper: a scoped chain event preserves the connected-state invariant. -/
theorem connInv_scopedChain {st : ConnectionState} (h : ConnInv st) (v : Value) :
    ConnInv (scopedChainChanged st v) := by
  cases v with
  | vStr s =>
    by_cases hf : (decide (s ≠ "") && isValidChainId s) = true
    · simp only [scopedChainChanged, if_pos hf]
      exact connInv_connectOnChain h _
    · simp only [scopedChainChanged, if_neg hf]
      exact h
  | vUndefined => exact h
  | vNull => exact h
  | vBool b => exact h
  | vNum n => exact h
  | vArr xs => exact h
  | vObj fs => exact h

/-- Helper: delivering an accounts event preserves the connected-state
invariant. -/
theorem connInv_deliverAccounts {st : ConnectionState} (h : ConnInv st)
    (g : Bool) (payload : Value) :
    ConnInv (deliverAccountsChanged st g payload) := by
  cases g with
  | true => exact connInv_scopedAccounts (connInv_globalAccounts h payload) payload
  | false => exact connInv_scopedAccounts h payload

/-- Helper: delivering a chain event preserves the connected-state
invariant. -/
theorem connInv_deliverChain {st : ConnectionState} (h : ConnInv st)
    (g : Bool) (v : Value) : ConnInv (deliverChainChanged st g v) := by
  cases g with
  | true => exact connInv_scopedChain (connInv_globalChain h v) v
  | false => exact connInv_scopedChain h v

/-- Helper: the scoped disconnect callback preserves the connected-state
invariant (it leaves a disconnected state). -/
theorem connInv_connectOnDisconnect {st : ConnectionState} (msg : String) :
    ConnInv (connectOnDisconnect st msg) := by
  intro hc
  exact ProviderStatus.noConfusion hc

/-- Helper: under a chain-well-typed host, a successful `getChainId` yields
a string. -/
theorem getChainId_string {resp : ProviderResponses} {timeoutMs : Nat} {v : Value}
    (h1 : ∀ w, resp.chainIdDirect = RequestOutcome.resolves w → isStringV w = true)
    (h2 : ∀ w, resp.chainIdFallbackOutcome = RequestOutcome.resolves w →
      isStringV (unwrapResponse w) = true)
    (h : getChainId resp timeoutMs = Except.ok v) : isStringV v = true := by
  unfold getChainId at h
  cases hd : resp.chainIdDirect with
  | resolves w =>
    rw [hd] at h
    injection h with h'
    rw [← h']
    exact h1 w hd
  | rejects c m =>
    rw [hd] at h
    cases hwt : resp.chainIdFallbackWithinTimeout with
    | false =>
      rw [hwt] at h
      simp [safeProviderRequest] at h
    | true =>
      rw [hwt] at h
      cases hf : resp.chainIdFallbackOutcome with
      | resolves w =>
        rw [hf] at h
        simp only [safeProviderRequest, if_true] at h
        injection h with h'
        rw [← h']
        exact h2 w hf
      | rejects c' m' =>
        rw [hf] at h
        simp [safeProviderRequest] at h

/-- Helper: a successful `connect` attempt got its chain id from
`getChainId`. -/
theorem connectAttempt_ok_chain {name : String} {env : AttemptEnv}
    {timeoutMs : Nat} {r : AttemptResult}
    (h : connectAttempt name env timeoutMs = Except.ok r) :
    getChainId env.responses timeoutMs = Except.ok r.chainId := by
  unfold connectAttempt at h
  cases hf : env.detected.find? (fun p => p.name == name) with
  | none =>
    rw [hf] at h
    exact Except.noConfusion h
  | some p =>
    rw [hf] at h
    cases hreq : p.hasRequest with
    | false => simp [hreq] at h
    | true =>
      simp only [hreq, Bool.not_true, Bool.false_eq_true, if_false] at h
      cases ha : requestAccounts env.responses timeoutMs with
      | error e =>
        rw [ha] at h
        exact Except.noConfusion h
      | ok accounts =>
        rw [ha] at h
        cases hc : getChainId env.responses timeoutMs with
        | error e =>
          rw [hc] at h
          exact Except.noConfusion h
        | ok chain =>
          rw [hc] at h
          injection h with h'
          rw [← h']

/-- Helper: a `connect` step against chain-well-typed environments leaves a
state satisfying the connected-state invariant. -/
theorem connInv_connect {st : ConnectionState} {name : String}
    {envs : Nat → AttemptEnv} {maxRetries timeoutMs : Nat}
    (hwt : ∀ i, ChainWellTyped (envs i)) :
    ConnInv (connect st name envs maxRetries timeoutMs).finalState := by
  intro hc
  cases hres : (retryOperation (fun attempt => connectAttempt name (envs attempt) timeoutMs)
      maxRetries).result with
  | error e =>
    obtain ⟨hstate, _⟩ := connect_error_case hres
    rw [hstate] at hc
    exact ProviderStatus.noConfusion hc
  | ok r =>
    have hcommit : (connect st name envs maxRetries timeoutMs).finalState
        = { currentProvider := some r.providerInfo, accounts := r.accounts
            chainId := normalizeNullable r.chainId, status := .connected
            lastError := none } := by
      simp only [connect]
      rw [hres]
    rw [hcommit]
    refine ⟨by simp, ?_⟩
    rw [retryOperation] at hres
    obtain ⟨i, hop⟩ := retryGo_result_ok _ maxRetries 0 r hres
    have hchain := connectAttempt_ok_chain hop
    have hstr : isStringV r.chainId = true :=
      getChainId_string (hwt i).1 (hwt i).2 hchain
    cases hv : r.chainId with
    | vStr s => simp [normalizeNullable]
    | vUndefined => rw [hv] at hstr; exact absurd hstr (by simp [isStringV])
    | vNull => rw [hv] at hstr; exact absurd hstr (by simp [isStringV])
    | vBool b => rw [hv] at hstr; exact absurd hstr (by simp [isStringV])
    | vNum n => rw [hv] at hstr; exact absurd hstr (by simp [isStringV])
    | vArr xs => rw [hv] at hstr; exact absurd hstr (by simp [isStringV])
    | vObj fs => rw [hv] at hstr; exact absurd hstr (by simp [isStringV])

/-- Claim C1 (corrected), the amended statement: over every state reachable
through connects (against hosts whose chain-id responses are strings, per
the declared types), disconnects, clearError and the event-driven
transitions, `status = connected` implies a non-null `currentProvider` and a
non-null `chainId`. The other directions of the claimed invariant fail: a
failed reconnect keeps the previous provider, accounts and chain id in the
`error` state, `clearError` then yields a `disconnected` state that still
holds them, and the accounts-non-empty conjunct is void because
`requestAccounts`' last-resort fallback can resolve with an empty list. -/
theorem c1_connected_invariant (P : AttemptEnv → Prop)
    (hP : ∀ env, P env → ChainWellTyped env)
    (st : ConnectionState) (hreach : Reachable P st) :
    st.status = .connected → st.currentProvider ≠ none ∧ st.chainId ≠ none := by
  induction hreach with
  | init => exact fun hc => ProviderStatus.noConfusion hc
  | connectStep name envs maxRetries timeoutMs _ hPenvs ih =>
    exact connInv_connect (fun i => hP _ (hPenvs i))
  | disconnectStep _ ih => exact connInv_disconnect ih
  | clearErrorStep _ ih => exact connInv_clearError ih
  | accountsEvent g payload _ ih => exact connInv_deliverAccounts ih g payload
  | chainEvent g v _ ih => exact connInv_deliverChain ih g v
  | disconnectEvent msg _ ih => exact connInv_connectOnDisconnect msg

/-- Claim C1 witness: the concrete connected state reached against the
well-behaved host satisfies the amended invariant. -/
theorem c1_witness :
    goodConnectedState.status = .connected
    ∧ goodConnectedState.currentProvider ≠ none
    ∧ goodConnectedState.chainId ≠ none := by
  have hgood : ∀ i : Nat, ChainWellTyped ((fun _ : Nat => goodEnv) i) := by
    intro i
    constructor
    · intro v hv
      have hv' : RequestOutcome.resolves (.vStr "0x1") = RequestOutcome.resolves v := hv
      injection hv' with h'
      rw [← h']
      rfl
    · intro v hv
      have hv' : RequestOutcome.rejects none "" = RequestOutcome.resolves v := hv
      exact RequestOutcome.noConfusion hv'
  have h := c1_connected_invariant ChainWellTyped (fun _ hh => hh) goodConnectedState
    (Reachable.connectStep "metamask" (fun _ => goodEnv) defaultMaxRetries
      defaultRequestTimeout Reachable.init hgood) rfl
  exact ⟨rfl, h.1, h.2⟩

/-- Claim C1 counterexample: after a successful connect, a failed reconnect
and a `clearError`, the machine reaches an `error` state whose
`currentProvider`, `accounts` and `chainId` are all still populated (so the
right-hand side of the claimed `connected ⇔ ...` holds at a non-connected
state), and `clearError` then produces a `disconnected` state whose
`currentProvider` is non-null and whose `accounts` are non-empty (refuting
`disconnected ⇒ activeEndpoint = null ∧ accounts = []`). -/
theorem c1_counterexample :
    Reachable (fun _ => True) failedReconnectState
    ∧ failedReconnectState.status = .error
    ∧ failedReconnectState.currentProvider ≠ none
    ∧ failedReconnectState.accounts ≠ []
    ∧ failedReconnectState.chainId ≠ none
    ∧ Reachable (fun _ => True) (clearError failedReconnectState)
    ∧ (clearError failedReconnectState).status = .disconnected
    ∧ (clearError failedReconnectState).currentProvider ≠ none
    ∧ (clearError failedReconnectState).accounts ≠ [] := by
  have h1 : Reachable (fun _ => True) goodConnectedState :=
    Reachable.connectStep "metamask" (fun _ => goodEnv) defaultMaxRetries
      defaultRequestTimeout Reachable.init (fun _ => trivial)
  have h2 : Reachable (fun _ => True) failedReconnectState :=
    Reachable.connectStep "metamask" (fun _ => notFoundEnv) defaultMaxRetries
      defaultRequestTimeout h1 (fun _ => trivial)
  refine ⟨h2, rfl, ?_, ?_, ?_, Reachable.clearErrorStep h2, rfl, ?_, ?_⟩
  · exact fun h => Option.noConfusion h
  · exact fun h => List.noConfusion h
  · exact fun h => Option.noConfusion h
  · exact fun h => Option.noConfusion h
  · exact fun h => List.noConfusion h

/-- Helper: the scoped accounts callback always stores exactly the
re-filtered list, in both the reset and the non-reset branch. -/
theorem connectOnAccountsChanged_accounts (st : ConnectionState) (xs : List Value) :
    (connectOnAccountsChanged st xs).accounts = xs.filter isTruthyString := by
  simp only [connectOnAccountsChanged]
  split <;> rfl

/-- Claim C7 (corrected), the amended statement: validation exists only on
the connection-scoped event path — a scoped chain-changed event either
leaves `chainId` unchanged or stores a string accepted by `isValidChainId`,
every account a scoped accounts-changed event stores passes
`isValidAddress`, and `isValidChainId` itself guarantees a `0x`-prefixed
hex string (uppercase allowed, unlike the spec's lowercase pattern),
non-zero, with length in `[3, 64]`. Connect commits and the global window
handlers store values with no such validation, which is what refutes the
claimed state invariant. -/
theorem c7_scoped_validation (st : ConnectionState) (v payload : Value) :
    ((scopedChainChanged st v).chainId = st.chainId
      ∨ ∃ s, (scopedChainChanged st v).chainId = some (.vStr s)
          ∧ isValidChainId s = true)
    ∧ (∀ a, a ∈ (scopedAccountsChanged st payload).accounts →
        ∃ s, a = Value.vStr s ∧ isValidAddress s = true)
    ∧ (∀ s, isValidChainId s = true →
        s.data ≠ ['0', 'x', '0'] ∧ 3 ≤ s.data.length ∧ s.data.length ≤ 64
          ∧ ∃ rest, s.data = '0' :: 'x' :: rest ∧ rest ≠ []
              ∧ rest.all isHexChar = true) := by
  refine ⟨?_, ?_, ?_⟩
  · cases v with
    | vStr s =>
      by_cases hf : (decide (s ≠ "") && isValidChainId s) = true
      · right
        obtain ⟨hne, hvalid⟩ := Bool.and_eq_true _ _ |>.mp hf
        refine ⟨s, ?_, hvalid⟩
        have hne' : ¬ s = "" := by simpa using hne
        simp only [scopedChainChanged, if_pos hf, connectOnChainChanged, if_neg hne']
      · left
        simp only [scopedChainChanged, if_neg hf]
    | vUndefined => exact Or.inl rfl
    | vNull => exact Or.inl rfl
    | vBool b => exact Or.inl rfl
    | vNum n => exact Or.inl rfl
    | vArr xs => exact Or.inl rfl
    | vObj fs => exact Or.inl rfl
  · intro a ha
    have haccts : (scopedAccountsChanged st payload).accounts
        = (scopedValidAccounts payload).filter isTruthyString := by
      simp only [scopedAccountsChanged, connectOnAccountsChanged_accounts]
    rw [haccts, List.mem_filter] at ha
    obtain ⟨hmem, _⟩ := ha
    unfold scopedValidAccounts at hmem
    rw [List.mem_filter] at hmem
    obtain ⟨_, hpred⟩ := hmem
    rw [Bool.and_eq_true] at hpred
    obtain ⟨_, hmatch⟩ := hpred
    cases a with
    | vStr s => exact ⟨s, rfl, hmatch⟩
    | vUndefined => exact Bool.noConfusion hmatch
    | vNull => exact Bool.noConfusion hmatch
    | vBool b => exact Bool.noConfusion hmatch
    | vNum n => exact Bool.noConfusion hmatch
    | vArr xs => exact Bool.noConfusion hmatch
    | vObj fs => exact Bool.noConfusion hmatch
  · intro s h
    simp only [isValidChainId] at h
    split at h
    · exact absurd h (by simp)
    · rw [Bool.and_eq_true, Bool.and_eq_true] at h
      obtain ⟨⟨hhex, hz⟩, hlen⟩ := h
      rw [Bool.and_eq_true] at hz hlen
      obtain ⟨_, hz2⟩ := hz
      obtain ⟨hl1, hl2⟩ := hlen
      refine ⟨by simpa using hz2, by simpa using hl1, by simpa using hl2, ?_⟩
      split at hhex
      · next rest heq =>
        rw [Bool.and_eq_true] at hhex
        obtain ⟨hne, hall⟩ := hhex
        refine ⟨rest, heq, ?_, hall⟩
        intro hnil
        rw [hnil] at hne
        exact Bool.noConfusion hne
      · exact Bool.noConfusion hhex

/-- Claim C7 witness: a concrete valid chain id satisfies the shape the
amended claim extracts from `isValidChainId`. -/
theorem c7_witness :
    "0x1".data ≠ ['0', 'x', '0'] ∧ 3 ≤ "0x1".data.length ∧ "0x1".data.length ≤ 64
      ∧ ∃ rest, "0x1".data = '0' :: 'x' :: rest ∧ rest ≠ []
          ∧ rest.all isHexChar = true :=
  (c7_scoped_validation initialState (.vStr "0x1") (.vArr [])).2.2 "0x1" (by decide)

/-- Claim C7 counterexample: `connect` commits a chain id and an account the
claimed patterns reject (the host returned them and no validation runs on
the commit path), the reached state is `connected`, and the global chain
handler likewise stores an arbitrary non-empty string; additionally even the
validated scoped path accepts uppercase hex, which the spec's lowercase
`^0x[0-9a-f]+$` pattern rejects. -/
theorem c7_counterexample :
    Reachable (fun _ => True) badConnectedState
    ∧ badConnectedState.status = .connected
    ∧ badConnectedState.chainId = some (.vStr "banana")
    ∧ specChainIdPattern "banana" = false
    ∧ badConnectedState.accounts = [.vStr "nonsense"]
    ∧ isValidAddress "nonsense" = false
    ∧ (handleGlobalChainChanged goodConnectedState (.vStr "not-hex")).chainId
        = some (.vStr "not-hex")
    ∧ specChainIdPattern "not-hex" = false
    ∧ (scopedChainChanged goodConnectedState (.vStr "0xAB")).chainId
        = some (.vStr "0xAB")
    ∧ specChainIdPattern "0xAB" = false := by
  refine ⟨Reachable.connectStep "metamask" (fun _ => badValueEnv) defaultMaxRetries
    defaultRequestTimeout Reachable.init (fun _ => trivial),
    rfl, rfl, rfl, rfl, rfl, rfl, rfl, rfl, rfl⟩

/-- Claim C8 (confirmed): from any reachable connected state, delivering an
accounts-changed event whose list is empty after the scoped
validation/filtering moves the status to `disconnected`, clears the current
provider and the chain id, and stores the empty account list — whether or
not the mount-time global handler also sees the event. -/
theorem c8_empty_accounts_disconnects (P : AttemptEnv → Prop)
    (st : ConnectionState) (globallyListened : Bool) (payload : Value)
    (hreach : Reachable P st) (hconn : st.status = .connected)
    (hempty : scopedValidAccounts payload = []) :
    (deliverAccountsChanged st globallyListened payload).status = .disconnected
    ∧ (deliverAccountsChanged st globallyListened payload).currentProvider = none
    ∧ (deliverAccountsChanged st globallyListened payload).chainId = none
    ∧ (deliverAccountsChanged st globallyListened payload).accounts = [] := by
  have hstep : ∀ st' : ConnectionState,
      scopedAccountsChanged st' payload
        = { st' with accounts := [], currentProvider := none, chainId := none, status := ProviderStatus.disconnected } := by
    intro st'
    simp [scopedAccountsChanged, connectOnAccountsChanged, hempty]
  cases globallyListened with
  | true =>
    simp only [deliverAccountsChanged, if_pos rfl]
    rw [hstep]
    exact ⟨rfl, rfl, rfl, rfl⟩
  | false =>
    simp only [deliverAccountsChanged]
    rw [hstep]
    exact ⟨rfl, rfl, rfl, rfl⟩

/-- Claim C8 witness: the concrete connected state, an empty
accounts-changed payload, global listeners attached. -/
theorem c8_witness :
    (deliverAccountsChanged goodConnectedState true (.vArr [])).status = .disconnected
    ∧ (deliverAccountsChanged goodConnectedState true (.vArr [])).currentProvider = none
    ∧ (deliverAccountsChanged goodConnectedState true (.vArr [])).chainId = none
    ∧ (deliverAccountsChanged goodConnectedState true (.vArr [])).accounts = [] :=
  c8_empty_accounts_disconnects (fun _ => True) goodConnectedState true (.vArr [])
    (Reachable.connectStep "metamask" (fun _ => goodEnv) defaultMaxRetries
      defaultRequestTimeout Reachable.init (fun _ => trivial)) rfl rfl

/-- Claim C9 (corrected), the amended statement: a chain-changed value that
fails the scoped validation (not a string, or rejected by the truthy-string
guard or `isValidChainId`) leaves `chainId` unchanged provided the event
reaches only the connection-scoped listener — either because the connected
provider's window property carries no mount-time global listener (e.g.
`lxxwallet`), or because the value is not a truthy string, which the global
handler also ignores. When a global listener is attached and the invalid
value is a non-empty string, the global handler overwrites `chainId` with
it. -/
theorem c9_invalid_chain_scoped_ignored (st : ConnectionState) (g : Bool) (v : Value)
    (hinvalid : (match v with
      | Value.vStr s => (decide (s ≠ "") && isValidChainId s) = false
      | _ => True))
    (hnoglobal : g = false ∨ isTruthyString v = false) :
    (deliverChainChanged st g v).chainId = st.chainId := by
  cases v with
  | vStr s =>
    have hscoped : ∀ st' : ConnectionState, scopedChainChanged st' (.vStr s) = st' := by
      intro st'
      have hinv : (decide (s ≠ "") && isValidChainId s) = false := hinvalid
      simp only [scopedChainChanged]
      rw [if_neg]
      exact fun hcontra => Bool.noConfusion (hinv ▸ hcontra)
    rcases hnoglobal with hg | hs
    · subst hg
      simp only [deliverChainChanged, Bool.false_eq_true, if_false]
      rw [hscoped]
    · have hs' : s = "" := by simpa [isTruthyString] using hs
      subst hs'
      cases g <;> simp [deliverChainChanged, handleGlobalChainChanged, hscoped]
  | vUndefined => cases g <;> rfl
  | vNull => cases g <;> rfl
  | vBool b => cases g <;> rfl
  | vNum n => cases g <;> rfl
  | vArr xs => cases g <;> rfl
  | vObj fs => cases g <;> rfl

/-- Claim C9 witness: the invalid string `banana`, delivered only through
the scoped listener of the concrete connected state, leaves the chain id
untouched. -/
theorem c9_witness :
    (deliverChainChanged goodConnectedState false (.vStr "banana")).chainId
      = goodConnectedState.chainId :=
  c9_invalid_chain_scoped_ignored goodConnectedState false (.vStr "banana")
    (by decide) (Or.inl rfl)

/-- Claim C9 counterexample: MetaMask's window property (`ethereum`)
carries the mount-time global listeners, and the global chain handler
applies any non-empty string — so delivering the invalid chain id `banana`
to the reachable connected state changes `chainId`, refuting "leaves
`ConnectionState.chainId` unchanged". -/
theorem c9_counterexample :
    Reachable (fun _ => True) goodConnectedState
    ∧ goodConnectedState.status = .connected
    ∧ goodConnectedState.chainId = some (.vStr "0x1")
    ∧ isValidChainId "banana" = false
    ∧ hasGlobalListeners "metamask" = true
    ∧ (deliverChainChanged goodConnectedState (hasGlobalListeners "metamask")
        (.vStr "banana")).chainId = some (.vStr "banana")
    ∧ (deliverChainChanged goodConnectedState (hasGlobalListeners "metamask")
        (.vStr "banana")).chainId ≠ goodConnectedState.chainId := by
  refine ⟨Reachable.connectStep "metamask" (fun _ => goodEnv) defaultMaxRetries
    defaultRequestTimeout Reachable.init (fun _ => trivial),
    rfl, rfl, rfl, rfl, rfl, ?_⟩
  intro h
  have h' : some (Value.vStr "banana") = some (Value.vStr "0x1") := h
  injection h' with h''
  injection h'' with h'''
  exact absurd h''' (by decide)

/-- Claim C10 (corrected), the amended statement: `disconnect()` resets the
machine to the initial disconnected shape exactly when a provider is
current; from an `error` state with no committed endpoint — the failed
first connect — it is an early-returning no-op, so the status stays
`error` (only `clearError` moves such a state to `disconnected`, and it
clears nothing but the error). -/
theorem c10_disconnect_resets (st : ConnectionState) (p : DetectedWalletProvider)
    (hstatus : st.status = .error) (hp : st.currentProvider = some p) :
    disconnect st =
      { currentProvider := none, accounts := [], chainId := none
        status := .disconnected, lastError := none } := by
  unfold disconnect
  rw [hp]

/-- Claim C10 witness: disconnecting the reachable error state that still
holds the previously connected provider resets every field. -/
theorem c10_witness :
    disconnect failedReconnectState =
      { currentProvider := none, accounts := [], chainId := none
        status := .disconnected, lastError := none } :=
  c10_disconnect_resets failedReconnectState metamaskInfo rfl rfl

/-- Claim C10 counterexample: the `error` state reached by a failed first
connect has no current provider, so `disconnect()` is a no-op on it and the
status remains `error` instead of becoming `disconnected`. -/
theorem c10_counterexample :
    Reachable (fun _ => True) c10ErrorState
    ∧ c10ErrorState.status = .error
    ∧ c10ErrorState.currentProvider = none
    ∧ disconnect c10ErrorState = c10ErrorState
    ∧ (disconnect c10ErrorState).status ≠ .disconnected := by
  refine ⟨Reachable.connectStep "metamask" (fun _ => notFoundEnv) defaultMaxRetries
    defaultRequestTimeout Reachable.init (fun _ => trivial), rfl, rfl, rfl, ?_⟩
  intro h
  exact ProviderStatus.noConfusion h

end Web3SDK
